import Mathlib

/-!
Verification development for the DataDive25 World Bank data-pipeline scripts.

The repository has three Python files:
  * Team_Projects/SampleTeamWithApp/load_data.py - fetcher + DuckDB loader,
  * Team_Projects/SampleTeamWithApp/app.py      - query/aggregation layer,
  * Team_Projects/Table4/fetch_data.py          - alternate JSON fetcher.

This file gives a shallow embedding of those scripts.  Tables are lists of
records, SQL DOUBLE values are modelled as exact rationals, nullable SQL
columns as Option, and fallible steps (strict SQL CAST, HTTP errors) as
Except / explicit outcome records.  DuckDB's strict CAST raises a conversion
error on a non-null unparseable cell, which the embedding mirrors by making
the clean-table build return Except.
-/

namespace DataDive

/-- A row of the raw indicator CSV as staged verbatim into the table
indicator_raw by load_data.py (read_csv_auto).  TIME_PERIOD and OBS_VALUE
are nullable cells carried as raw text; the other columns are text. -/
structure RawRow where
  REF_AREA : String
  REF_AREA_LABEL : String
  TIME_PERIOD : Option String
  OBS_VALUE : Option String
  INDICATOR_LABEL : String
deriving DecidableEq

/-- A row of the clean table indicator_clean built by load_data.py:
columns renamed, year cast to INTEGER, value cast to DOUBLE (modelled as an
exact rational). -/
structure CleanRow where
  country_code : String
  country_name : String
  year : Int
  value : ℚ
  indicator_name : String
deriving DecidableEq

/-- A row of the enriched table indicator_with_region built by load_data.py:
a clean row plus the region column produced by the left join with
region_mapping and COALESCE(r.region, 'Other').  The SQL column is a
nullable VARCHAR, hence Option String, though the COALESCE always supplies
a value. -/
structure EnrichedRow where
  country_code : String
  country_name : String
  year : Int
  value : ℚ
  indicator_name : String
  region : Option String
deriving DecidableEq

/-- A row of the dictionary CSV; its schema is inferred from the header and
never inspected by the pipeline, so it is modelled as a generic row of
nullable text cells. -/
abbrev DictRow := List (Option String)

/-- The value of a single decimal digit character. -/
def digitVal (c : Char) : Option Nat :=
  if c.isDigit then some (c.toNat - 48) else none

/-- Read a nonempty all-digit character list as a natural number. -/
def digitsVal (cs : List Char) : Option Nat :=
  if cs.isEmpty then none
  else
    cs.foldl
      (fun acc c =>
        match acc, digitVal c with
        | some n, some d => some (10 * n + d)
        | _, _ => none)
      (some 0)

/-- DuckDB CAST(text AS INTEGER): optional sign followed by digits; any
other shape is a conversion error (modelled as none). -/
def castInt (s : String) : Option Int :=
  match s.data with
  | '-' :: rest => (digitsVal rest).map (fun n => -(n : Int))
  | '+' :: rest => (digitsVal rest).map (fun n => (n : Int))
  | cs => (digitsVal cs).map (fun n => (n : Int))

/-- Split a character list at the first '.', if any. -/
def splitDot : List Char → (List Char × Option (List Char))
  | [] => ([], none)
  | c :: cs =>
    if c = '.' then ([], some cs)
    else
      let p := splitDot cs
      (c :: p.1, p.2)

/-- Digits of an integer or fractional part; an empty part counts as 0 so
that forms such as "62." and ".5" are accepted. -/
def digitsValOrEmpty (cs : List Char) : Option Nat :=
  if cs.isEmpty then some 0 else digitsVal cs

/-- An unsigned decimal literal as an exact rational. -/
def decimalVal (cs : List Char) : Option ℚ :=
  match splitDot cs with
  | (ip, none) => (digitsVal ip).map (fun n => (n : ℚ))
  | (ip, some fp) =>
    if ip.isEmpty && fp.isEmpty then none
    else
      match digitsValOrEmpty ip, digitsValOrEmpty fp with
      | some n, some f => some ((n : ℚ) + (f : ℚ) / ((10 : ℚ) ^ fp.length))
      | _, _ => none

/-- DuckDB CAST(text AS DOUBLE), modelled exactly over the rationals:
optional sign, digits, optional fractional part.  Scientific notation and
special float values are not modelled; an unmodelled form counts as a
conversion error (none). -/
def castDouble (s : String) : Option ℚ :=
  match s.data with
  | '-' :: rest => (decimalVal rest).map (fun q => -q)
  | '+' :: rest => decimalVal rest
  | cs => decimalVal cs

/-- The projection/cast applied by the indicator_clean SELECT to one raw row
whose value and period are non-null: rename columns, cast the period to an
integer year and the value to a double.  none signals a conversion error. -/
def cleanRowOf (r : RawRow) : Option CleanRow :=
  match r.TIME_PERIOD, r.OBS_VALUE with
  | some tp, some ov =>
    match castInt tp, castDouble ov with
    | some y, some v =>
      some ⟨r.REF_AREA, r.REF_AREA_LABEL, y, v, r.INDICATOR_LABEL⟩
    | _, _ => none
  | _, _ => none

/-- The WHERE clause of the indicator_clean build:
OBS_VALUE IS NOT NULL AND TIME_PERIOD IS NOT NULL. -/
def bothNotNull (r : RawRow) : Bool :=
  r.OBS_VALUE.isSome && r.TIME_PERIOD.isSome

/-- Cast every row of the (already filtered) staging rows; the first
conversion error aborts the whole statement, as DuckDB's strict CAST does. -/
def buildCleanRows : List RawRow → Except String (List CleanRow)
  | [] => .ok []
  | r :: rs =>
    match cleanRowOf r with
    | none => .error "Conversion Error"
    | some c =>
      match buildCleanRows rs with
      | .error e => .error e
      | .ok cs => .ok (c :: cs)

/-- CREATE OR REPLACE TABLE indicator_clean AS SELECT ... FROM indicator_raw
WHERE OBS_VALUE IS NOT NULL AND TIME_PERIOD IS NOT NULL. -/
def buildClean (raws : List RawRow) : Except String (List CleanRow) :=
  buildCleanRows (raws.filter bothNotNull)

/-- Whether the clean-table build succeeds on the given staged rows. -/
def loadAccepts (raws : List RawRow) : Bool :=
  match buildClean raws with
  | .ok _ => true
  | .error _ => false

/-- The static country-code -> region lookup table created by load_data.py
(CREATE OR REPLACE TABLE region_mapping AS SELECT * FROM (VALUES ...)). -/
def region_mapping : List (String × String) :=
  [ ("CHN", "East Asia & Pacific"),
    ("JPN", "East Asia & Pacific"),
    ("KOR", "East Asia & Pacific"),
    ("AUS", "East Asia & Pacific"),
    ("IDN", "East Asia & Pacific"),
    ("THA", "East Asia & Pacific"),
    ("VNM", "East Asia & Pacific"),
    ("MYS", "East Asia & Pacific"),
    ("PHL", "East Asia & Pacific"),
    ("NZL", "East Asia & Pacific"),
    ("DEU", "Europe & Central Asia"),
    ("FRA", "Europe & Central Asia"),
    ("GBR", "Europe & Central Asia"),
    ("ITA", "Europe & Central Asia"),
    ("ESP", "Europe & Central Asia"),
    ("POL", "Europe & Central Asia"),
    ("NLD", "Europe & Central Asia"),
    ("TUR", "Europe & Central Asia"),
    ("RUS", "Europe & Central Asia"),
    ("UKR", "Europe & Central Asia"),
    ("BRA", "Latin America & Caribbean"),
    ("MEX", "Latin America & Caribbean"),
    ("ARG", "Latin America & Caribbean"),
    ("COL", "Latin America & Caribbean"),
    ("CHL", "Latin America & Caribbean"),
    ("PER", "Latin America & Caribbean"),
    ("VEN", "Latin America & Caribbean"),
    ("EGY", "Middle East & North Africa"),
    ("SAU", "Middle East & North Africa"),
    ("IRN", "Middle East & North Africa"),
    ("IRQ", "Middle East & North Africa"),
    ("MAR", "Middle East & North Africa"),
    ("DZA", "Middle East & North Africa"),
    ("USA", "North America"),
    ("CAN", "North America"),
    ("IND", "South Asia"),
    ("PAK", "South Asia"),
    ("BGD", "South Asia"),
    ("LKA", "South Asia"),
    ("NPL", "South Asia"),
    ("NGA", "Sub-Saharan Africa"),
    ("ZAF", "Sub-Saharan Africa"),
    ("KEN", "Sub-Saharan Africa"),
    ("ETH", "Sub-Saharan Africa"),
    ("TZA", "Sub-Saharan Africa"),
    ("GHA", "Sub-Saharan Africa") ]

/-- SQL UPPER, applied character by character (the country codes involved
are ASCII). -/
def sqlUpper (s : String) : String :=
  ⟨s.data.map Char.toUpper⟩

/-- One output row of the enrichment SELECT: the clean row's columns plus
COALESCE(r.region, 'Other') as region (the SQL column is nullable, hence
the value is wrapped in some). -/
def enrichRow (c : CleanRow) (matched : Option String) : EnrichedRow :=
  ⟨c.country_code, c.country_name, c.year, c.value, c.indicator_name,
   some (matched.getD "Other")⟩

/-- The rows the left join produces for one clean row: when no lookup
entry matches UPPER(country_code), a single row with the NULL join result
(coalesced to "Other"); otherwise one row per matching entry. -/
def enrichRowsFor (c : CleanRow) : List EnrichedRow :=
  match region_mapping.filter (fun p => p.1 == sqlUpper c.country_code) with
  | [] => [enrichRow c none]
  | ms => ms.map (fun p => enrichRow c (some p.2))

/-- CREATE OR REPLACE TABLE indicator_with_region AS SELECT i.*,
COALESCE(r.region, 'Other') AS region FROM indicator_clean i LEFT JOIN
region_mapping r ON UPPER(i.country_code) = r.country_code. -/
def enrich (clean : List CleanRow) : List EnrichedRow :=
  clean.flatMap enrichRowsFor

/-- The tables held in the DuckDB database file after a successful load. -/
structure Database where
  indicator_raw : List RawRow
  dictionary : List DictRow
  indicator_clean : List CleanRow
  region_mapping_table : List (String × String)
  indicator_with_region : List EnrichedRow
deriving DecidableEq

/-- load_into_duckdb from load_data.py: stage the indicator CSV verbatim,
stage the dictionary CSV with SELECT DISTINCT *, build the clean table
(strict casts; a conversion error aborts the load), rebuild the static
region_mapping table, and build the enriched table.  Every statement uses
CREATE OR REPLACE, so the prior database contents are never read; the prior
state is the first argument and is discarded. -/
def load_into_duckdb (_db : Database) (indicatorFile : List RawRow)
    (dictionaryFile : List DictRow) : Except String Database :=
  match buildClean indicatorFile with
  | .error e => .error e
  | .ok clean =>
    .ok { indicator_raw := indicatorFile
          dictionary := dictionaryFile.dedup
          indicator_clean := clean
          region_mapping_table := region_mapping
          indicator_with_region := enrich clean }

/-! ### Query/aggregation layer (app.py) -/

/-- The WHERE conjuncts shared by the app.py queries:
region != 'Unknown' AND region IS NOT NULL AND region != ''.
Under SQL three-valued logic a NULL region fails the comparison, so the row
is excluded. -/
def validRegion : Option String → Bool
  | none => false
  | some s => !(s == "Unknown") && !(s == "")

/-- The optional region filter of get_regional_data/get_summary_stats.
In Python an empty selection list is falsy, so no IN clause is added for
it, exactly like passing None. -/
def regionSelected (sel : Option (List String)) (reg : Option String) : Bool :=
  match sel with
  | none => true
  | some [] => true
  | some rs =>
    match reg with
    | none => false
    | some s => rs.contains s

/-- The optional year-range filter of get_regional_data:
year >= lo AND year <= hi. -/
def yearInRange : Option (Int × Int) → Int → Bool
  | none, _ => true
  | some lohi, y => decide (lohi.1 ≤ y) && decide (y ≤ lohi.2)

/-- The full WHERE clause of the get_regional_data query applied to one
enriched row. -/
def rowPasses (sel : Option (List String)) (yr : Option (Int × Int))
    (r : EnrichedRow) : Bool :=
  validRegion r.region && regionSelected sel r.region && yearInRange yr r.year

/-- The enriched rows surviving the WHERE clause of get_regional_data. -/
def filteredRows (tbl : List EnrichedRow) (sel : Option (List String))
    (yr : Option (Int × Int)) : List EnrichedRow :=
  tbl.filter (rowPasses sel yr)

/-- The rows of one (region, year) group. -/
def groupRows (rows : List EnrichedRow) (reg : Option String) (y : Int) :
    List EnrichedRow :=
  rows.filter (fun r => r.region == reg && r.year == y)

/-- COUNT(DISTINCT country_code) over a row list. -/
def distinctCountries (rows : List EnrichedRow) : Nat :=
  ((rows.map (fun r => r.country_code)).dedup).length

/-- One output row of get_regional_data: region, year,
AVG(value) and COUNT(DISTINCT country_code). -/
structure GroupRow where
  region : Option String
  year : Int
  avg_participation_rate : ℚ
  num_countries : Nat
deriving DecidableEq, Inhabited

/-- The aggregate row computed for one (region, year) key. -/
def mkGroupRow (rows : List EnrichedRow) (k : Option String × Int) : GroupRow :=
  let g := groupRows rows k.1 k.2
  ⟨k.1, k.2, ((g.map (fun r => r.value)).sum) / (g.length : ℚ),
   distinctCountries g⟩

/-- get_regional_data from app.py: filter by valid region, optional region
subset and optional inclusive year range; group by (region, year); report
AVG(value) and COUNT(DISTINCT country_code) per group; keep only groups
with at least 3 distinct contributing countries (the HAVING clause).  The
final ORDER BY region, year only permutes the output rows and is not
modelled. -/
def get_regional_data (tbl : List EnrichedRow) (sel : Option (List String))
    (yr : Option (Int × Int)) : List GroupRow :=
  let rows := filteredRows tbl sel yr
  (((rows.map (fun r => (r.region, r.year))).dedup).map
      (fun k => mkGroupRow rows k)).filter
    (fun g => decide (3 ≤ g.num_countries))

/-- get_available_regions from app.py: SELECT DISTINCT region with the
valid-region conjuncts plus region != 'Other'.  The ORDER BY region only
permutes the output and is not modelled. -/
def get_available_regions (tbl : List EnrichedRow) : List String :=
  ((tbl.filter
        (fun r => validRegion r.region && !(r.region == some "Other"))).filterMap
      (fun r => r.region)).dedup

/-- get_year_range from app.py: SELECT MIN(year), MAX(year) FROM
indicator_with_region, with no WHERE clause; an empty table yields SQL
NULLs. -/
def get_year_range (tbl : List EnrichedRow) : Option Int × Option Int :=
  ((tbl.map (fun r => r.year)).min?, (tbl.map (fun r => r.year)).max?)

/-- DuckDB ROUND's integer rounding: half away from zero. -/
def roundHalfAway (q : ℚ) : Int :=
  if q < 0 then -(Int.floor (-q + 1 / 2)) else Int.floor (q + 1 / 2)

/-- ROUND(x, 1). -/
def round1 (q : ℚ) : ℚ :=
  (roundHalfAway (q * 10) : ℚ) / 10

/-- One output row of get_summary_stats. -/
structure SummaryRow where
  region : Option String
  first_year : Option Int
  last_year : Option Int
  avg_rate : ℚ
  data_points : Nat
deriving DecidableEq

/-- get_summary_stats from app.py: filter by valid region and the optional
region subset, group by region, and report MIN(year), MAX(year),
ROUND(AVG(value), 1) and COUNT(*).  The ORDER BY avg_rate DESC only
permutes the output and is not modelled. -/
def get_summary_stats (tbl : List EnrichedRow) (sel : Option (List String)) :
    List SummaryRow :=
  let rows := tbl.filter (fun r => validRegion r.region && regionSelected sel r.region)
  ((rows.map (fun r => r.region)).dedup).map (fun reg =>
    let g := rows.filter (fun r => r.region == reg)
    ⟨reg, (g.map (fun r => r.year)).min?, (g.map (fun r => r.year)).max?,
     round1 (((g.map (fun r => r.value)).sum) / (g.length : ℚ)), g.length⟩)

/-- The state check_database_exists depends on: whether the database file
exists, and the contents of indicator_with_region (none when the table is
missing or the connection/query raises, which the except clause turns into
False). -/
structure DbState where
  fileExists : Bool
  indicator_with_region : Option (List EnrichedRow)

/-- check_database_exists from app.py: False when the file is absent;
otherwise COUNT(*) > 0, with any exception (missing table, unreadable
file) caught and reported as False.  Total by construction: it always
returns a boolean. -/
def check_database_exists (s : DbState) : Bool :=
  if s.fileExists = false then false
  else
    match s.indicator_with_region with
    | none => false
    | some rows => decide (0 < rows.length)

/-! ### Fetchers (download_data in load_data.py; fetch_data.py) -/

/-- Outcome of one fetch step: the file store afterwards, whether an HTTP
request was issued, and the error raised, if any. -/
structure FetchOutcome where
  files : List (String × String)
  fetched : Bool
  err : Option String
deriving DecidableEq

/-- Overwrite-or-create a file in the store. -/
def setFile (files : List (String × String)) (dest body : String) :
    List (String × String) :=
  (dest, body) :: files.filter (fun p => !(p.1 == dest))

/-- The per-dataset block of download_data in load_data.py: skip the HTTP
request entirely when the destination file already exists; otherwise issue
the request (resp is the status code and body the server would return),
raise_for_status on a 4xx/5xx status, and write the body to the file. -/
def fetchFile (resp : Nat × String) (dest : String)
    (files : List (String × String)) : FetchOutcome :=
  if (files.lookup dest).isSome then ⟨files, false, none⟩
  else if 400 ≤ resp.1 then ⟨files, true, some "HTTPError"⟩
  else ⟨setFile files dest resp.2, true, none⟩

/-- download_data from load_data.py: fetch the indicator file, then, if no
exception was raised, the dictionary file. -/
def download_data (respInd respDict : Nat × String)
    (files : List (String × String)) : FetchOutcome :=
  let o1 := fetchFile respInd "labor_force_data.csv" files
  match o1.err with
  | some e => ⟨o1.files, o1.fetched, some e⟩
  | none =>
    let o2 := fetchFile respDict "data_dictionary.csv" o1.files
    ⟨o2.files, o1.fetched || o2.fetched, o2.err⟩

/-- One record of the World Bank JSON API consumed by fetch_data.py. -/
structure WBEntry where
  country : String
  countryiso3code : String
  date : String
  value : Option ℚ
deriving DecidableEq

/-- The JSON response of the API: a status code and the parsed JSON array,
whose element 0 is metadata and element 1, when present, the record list. -/
structure WBResponse where
  status_code : Nat
  data : List (List WBEntry)

/-- Overwrite-or-create a record file in the Table4 file store. -/
def setRecFile (files : List (String × List WBEntry)) (name : String)
    (recs : List WBEntry) : List (String × List WBEntry) :=
  (name, recs) :: files.filter (fun p => !(p.1 == name))

/-- fetch_world_bank_data from Table4/fetch_data.py: the HTTP request is
always issued (there is no destination-file existence check); on status
200 with at least two JSON array elements the records are written to
name.csv, overwriting any existing file; otherwise nothing is written.
The Bool records that a request was issued. -/
def fetch_world_bank_data (resp : WBResponse) (name : String)
    (files : List (String × List WBEntry)) :
    List (String × List WBEntry) × Bool :=
  if resp.status_code = 200 then
    match resp.data[1]? with
    | some records => (setRecFile files name records, true)
    | none => (files, true)
  else (files, true)

/-! ### Concrete fixtures used by witnesses and counterexamples -/

/-- The USA raw row of the spec's worked example. -/
def rawUSA : RawRow :=
  ⟨"USA", "United States", some "2020", some "62.1", "Labor force participation rate"⟩

/-- The CAN raw row of the spec's worked example. -/
def rawCAN : RawRow :=
  ⟨"CAN", "Canada", some "2020", some "65.0", "Labor force participation rate"⟩

/-- The GBR raw row of the spec's worked example: null observed value. -/
def rawGBR : RawRow :=
  ⟨"GBR", "United Kingdom", some "2020", none, "Labor force participation rate"⟩

/-- A raw row with a non-null, non-numeric observed value. -/
def rawBad : RawRow :=
  ⟨"USA", "United States", some "2020", some "abc", "Labor force participation rate"⟩

/-- The spec's worked-example staging table. -/
def rawsEx : List RawRow := [rawUSA, rawCAN, rawGBR]

/-- A database value with every table empty. -/
def dbEmpty : Database := ⟨[], [], [], [], []⟩

/-- The database produced by loading empty raw files. -/
def dbLoadedEmpty : Database := ⟨[], [], [], region_mapping, []⟩

/-- A clean row for the USA. -/
def cleanUSA : CleanRow := ⟨"USA", "United States", 2020, 50, "Labor force participation rate"⟩

/-- The enriched row the join produces for cleanUSA. -/
def enrUSA : EnrichedRow :=
  ⟨"USA", "United States", 2020, 50, "Labor force participation rate", some "North America"⟩

/-- A three-country North-America enriched table for the aggregation
witness. -/
def tblNA : List EnrichedRow :=
  [⟨"USA", "United States", 2020, 60, "lfp", some "North America"⟩,
   ⟨"CAN", "Canada", 2020, 65, "lfp", some "North America"⟩,
   ⟨"MEX", "Mexico", 2020, 70, "lfp", some "North America"⟩]

/-- The first output group of get_regional_data on tblNA. -/
def g0NA : GroupRow := (get_regional_data tblNA none none).headI

/-- An enriched row whose region is the excluded value "Unknown". -/
def unknownRow : EnrichedRow := ⟨"XXX", "Nowhere", 1999, 50, "lfp", some "Unknown"⟩

/-- An enriched row sitting exactly at the lower end of a year range. -/
def rowLo : EnrichedRow := ⟨"USA", "United States", 2010, 50, "lfp", some "North America"⟩

/-- A record already on disk in the Table4 fixture. -/
def wbOld : WBEntry := ⟨"Oldland", "OLD", "2019", some 1⟩

/-- A record returned by the upstream API in the Table4 fixture. -/
def wbNew : WBEntry := ⟨"Newland", "NEW", "2020", some 2⟩

/-- A Table4 file store in which the destination file already exists. -/
def wbFiles : List (String × List WBEntry) := [("female_labor_force_participation", [wbOld])]

/-- A successful API response carrying one record. -/
def wbResp : WBResponse := ⟨200, [[], [wbNew]]⟩

/-! ### Claim C9 -/

/-- Claim C9: when the database file is absent, or the enriched table is
missing (any connection/query exception) or empty, check_database_exists
returns false rather than propagating an exception; the check is a total
boolean function of the state. -/
theorem claim_C9 (s : DbState)
    (h : s.fileExists = false ∨ s.indicator_with_region = none ∨
      s.indicator_with_region = some []) :
    check_database_exists s = false := by
  rcases h with h | h | h <;> simp [check_database_exists, h]

/-- Witness for C9 at the state with no database file. -/
theorem claim_C9_witness : check_database_exists ⟨false, none⟩ = false :=
  claim_C9 ⟨false, none⟩ (Or.inl rfl)

/-! ### Claim C5 -/

/-- Counterexample to C5 as stated: the Table4 fetcher issues the HTTP
request and overwrites the destination file even though the destination
file already exists, so the claim fails for that fetch operation. -/
theorem claim_C5_counterexample :
    (fetch_world_bank_data wbResp "female_labor_force_participation" wbFiles).2 = true ∧
    (fetch_world_bank_data wbResp "female_labor_force_participation" wbFiles).1 ≠ wbFiles := by
  decide

/-- Claim C5 as amended: the loader's per-dataset fetch step skips the HTTP
request and leaves the file store unchanged whenever the destination file
exists, while the Table4 fetcher always issues the request. -/
theorem claim_C5 :
    (∀ resp dest files, (List.lookup dest files).isSome = true →
        fetchFile resp dest files = ⟨files, false, none⟩) ∧
    (∀ resp name files, (fetch_world_bank_data resp name files).2 = true) := by
  constructor
  · intro resp dest files h
    simp [fetchFile, h]
  · intro resp name files
    by_cases h200 : resp.status_code = 200
    · cases hd : resp.data[1]? <;> simp [fetch_world_bank_data, h200, hd]
    · simp [fetch_world_bank_data, h200]

/-- Witness for C5: a cache hit leaves the store untouched and issues no
request. -/
theorem claim_C5_witness :
    fetchFile (200, "body") "f.csv" [("f.csv", "old")] = ⟨[("f.csv", "old")], false, none⟩ :=
  claim_C5.1 (200, "body") "f.csv" [("f.csv", "old")] (by decide)

/-! ### Claim C8 -/

/-- Claim C8: a supplied year range [lo, hi] restricts the rows
contributing to get_regional_data exactly to those with lo <= year <= hi,
both endpoints included; membership in the range-filtered rows is
equivalent to membership in the unfiltered rows plus the two inclusive
bounds. -/
theorem claim_C8 (tbl : List EnrichedRow) (sel : Option (List String))
    (lo hi : Int) (r : EnrichedRow) :
    r ∈ filteredRows tbl sel (some (lo, hi)) ↔
      r ∈ filteredRows tbl sel none ∧ lo ≤ r.year ∧ r.year ≤ hi := by
  simp only [filteredRows, List.mem_filter, rowPasses, yearInRange,
    Bool.and_eq_true, decide_eq_true_eq, Bool.and_true]
  tauto

/-- Witness for C8: a row whose year equals the lower endpoint of the range
is not excluded. -/
theorem claim_C8_witness : rowLo ∈ filteredRows [rowLo] none (some (2010, 2015)) :=
  (claim_C8 [rowLo] none 2010 2015 rowLo).mpr ⟨by decide, by decide, by decide⟩

/-! ### Claims C2 and C4: the clean-table build -/

/-- A successful cast pass relates the surviving staged rows one-to-one, in
order, to the produced clean rows. -/
theorem buildCleanRows_ok (l : List RawRow) (out : List CleanRow)
    (h : buildCleanRows l = .ok out) :
    List.Forall₂ (fun r c => cleanRowOf r = some c) l out := by
  induction l generalizing out with
  | nil =>
    simp only [buildCleanRows] at h
    cases h
    exact List.Forall₂.nil
  | cons r rs ih =>
    simp only [buildCleanRows] at h
    cases hc : cleanRowOf r with
    | none => rw [hc] at h; cases h
    | some c =>
      rw [hc] at h
      cases hr : buildCleanRows rs with
      | error e => rw [hr] at h; cases h
      | ok cs =>
        rw [hr] at h
        cases h
        exact List.Forall₂.cons hc (ih cs hr)

/-- The cast pass succeeds exactly when every row it is given casts. -/
theorem buildCleanRows_isOk_iff (l : List RawRow) :
    (∃ cs, buildCleanRows l = .ok cs) ↔ ∀ r ∈ l, (cleanRowOf r).isSome = true := by
  induction l with
  | nil => simp [buildCleanRows]
  | cons r rs ih =>
    constructor
    · rintro ⟨cs, hcs⟩
      simp only [buildCleanRows] at hcs
      cases hc : cleanRowOf r with
      | none => rw [hc] at hcs; cases hcs
      | some c =>
        rw [hc] at hcs
        cases hr : buildCleanRows rs with
        | error e => rw [hr] at hcs; cases hcs
        | ok cs' =>
          intro x hx
          rcases List.mem_cons.mp hx with rfl | hmem
          · simp [hc]
          · exact (ih.mp ⟨cs', hr⟩) x hmem
    · intro h
      rcases Option.isSome_iff_exists.mp (h r (List.mem_cons_self ..)) with ⟨c, hc⟩
      rcases ih.mpr (fun x hx => h x (List.mem_cons_of_mem _ hx)) with ⟨cs, hcs⟩
      exact ⟨c :: cs, by simp [buildCleanRows, hc, hcs]⟩

/-- Claim C2: whenever the load succeeds, the clean table contains exactly
one row per raw row with non-null value and non-null period, in order,
carrying the integer-cast year and the double-cast value, and no row for a
raw row with a null value or period.  (Forall₂ over the non-null filter
expresses the one-to-one correspondence and the exclusion at once.) -/
theorem claim_C2 (raws : List RawRow) (clean : List CleanRow)
    (h : buildClean raws = .ok clean) :
    List.Forall₂ (fun r c => cleanRowOf r = some c)
      (raws.filter bothNotNull) clean :=
  buildCleanRows_ok (raws.filter bothNotNull) clean h

/-- Witness for C2 on the spec's worked example (USA and CAN survive, the
null-valued GBR row is excluded). -/
theorem claim_C2_witness :
    List.Forall₂ (fun r c => cleanRowOf r = some c)
      (rawsEx.filter bothNotNull) ((buildClean rawsEx).toOption.getD []) := by
  have h : buildClean rawsEx = .ok ((buildClean rawsEx).toOption.getD []) := by
    have hok : loadAccepts rawsEx = true := by decide
    cases e : buildClean rawsEx with
    | ok cs => rfl
    | error msg => simp [loadAccepts, e] at hok
  exact claim_C2 rawsEx _ h

/-- Counterexample to C4 as stated: a raw row with the non-numeric observed
value "abc" does not get silently dropped; the strict CAST makes the whole
load fail with a conversion error instead of succeeding. -/
theorem claim_C4_counterexample :
    load_into_duckdb dbEmpty [rawBad] [] = Except.error "Conversion Error" := rfl

/-- Claim C4 as amended: raw rows with a null value or null period are
silently dropped, but a surviving row whose value or period does not cast
aborts the load with a conversion error; the load succeeds exactly when
every raw row with non-null value and period casts. -/
theorem claim_C4 (raws : List RawRow) :
    loadAccepts raws = true ↔
      ∀ r ∈ raws, bothNotNull r = true → (cleanRowOf r).isSome = true := by
  have h1 : loadAccepts raws = true ↔
      ∃ cs, buildCleanRows (raws.filter bothNotNull) = .ok cs := by
    unfold loadAccepts buildClean
    cases hb : buildCleanRows (raws.filter bothNotNull) <;> simp
  rw [h1, buildCleanRows_isOk_iff]
  simp [List.mem_filter, and_imp]

/-- Witness for C4: the null-valued GBR row is dropped without aborting the
load. -/
theorem claim_C4_witness : loadAccepts [rawUSA, rawGBR] = true :=
  (claim_C4 [rawUSA, rawGBR]).mpr (by decide)

/-! ### Claims C3 and C10: the enrichment join -/

/-- Claim C3: every row of the enriched table has a non-null region; a row
whose uppercased country code matches a lookup entry carries that entry's
region, and a row whose uppercased code is absent from the lookup table
carries "Other". -/
theorem claim_C3 (clean : List CleanRow) (e : EnrichedRow)
    (he : e ∈ enrich clean) :
    ∃ reg, e.region = some reg ∧
      ((sqlUpper e.country_code, reg) ∈ region_mapping ∨
        (reg = "Other" ∧ ∀ p ∈ region_mapping, p.1 ≠ sqlUpper e.country_code)) := by
  simp only [enrich, List.mem_flatMap] at he
  obtain ⟨c, hc, hmem⟩ := he
  unfold enrichRowsFor at hmem
  cases hfil : region_mapping.filter (fun p => p.1 == sqlUpper c.country_code) with
  | nil =>
    rw [hfil] at hmem
    simp only [List.mem_singleton] at hmem
    subst hmem
    refine ⟨"Other", rfl, Or.inr ⟨rfl, ?_⟩⟩
    intro p hp
    have hno := List.filter_eq_nil_iff.mp hfil p hp
    simpa using hno
  | cons q qs =>
    rw [hfil] at hmem
    rw [List.mem_map] at hmem
    obtain ⟨p, hp, rfl⟩ := hmem
    have hpmem : p ∈ region_mapping.filter (fun x => x.1 == sqlUpper c.country_code) := by
      rw [hfil]; exact hp
    rw [List.mem_filter] at hpmem
    obtain ⟨hpm, hpeq⟩ := hpmem
    have hpq : p.1 = sqlUpper c.country_code := by simpa using hpeq
    refine ⟨p.2, rfl, Or.inl ?_⟩
    show (sqlUpper c.country_code, p.2) ∈ region_mapping
    rw [← hpq]
    exact hpm

/-- Witness for C3: the USA clean row is enriched with region
"North America". -/
theorem claim_C3_witness :
    ∃ reg, enrUSA.region = some reg ∧
      ((sqlUpper enrUSA.country_code, reg) ∈ region_mapping ∨
        (reg = "Other" ∧ ∀ p ∈ region_mapping, p.1 ≠ sqlUpper enrUSA.country_code)) :=
  claim_C3 [cleanUSA] enrUSA (by decide)

/-- The lookup-table keys are pairwise distinct. -/
theorem rm_keys_nodup : (region_mapping.map Prod.fst).Nodup := by decide

/-- A key-based filter over an association list with pairwise-distinct keys
returns at most one entry. -/
theorem filter_key_len_le_one (l : List (String × String))
    (hnd : (l.map Prod.fst).Nodup) (k : String) :
    (l.filter (fun p => p.1 == k)).length ≤ 1 := by
  induction l with
  | nil => simp
  | cons q t ih =>
    rw [List.map_cons, List.nodup_cons] at hnd
    obtain ⟨hq, hnd'⟩ := hnd
    by_cases hqk : q.1 = k
    · have hfil : t.filter (fun p => p.1 == k) = [] := by
        rw [List.filter_eq_nil_iff]
        intro p hp hbeq
        have hpk : p.1 = k := by simpa using hbeq
        exact hq (List.mem_map.mpr ⟨p, hp, by rw [hpk, hqk]⟩)
      have hq' : (q.1 == k) = true := by simpa using hqk
      simp [List.filter_cons, hq', hfil]
    · have hq' : (q.1 == k) = false := by simpa using hqk
      simp only [List.filter_cons, hq', Bool.false_eq_true, if_false]
      exact ih hnd'

/-- Each clean row produces exactly one enriched row. -/
theorem enrichRowsFor_length (c : CleanRow) : (enrichRowsFor c).length = 1 := by
  unfold enrichRowsFor
  cases hfil : region_mapping.filter (fun p => p.1 == sqlUpper c.country_code) with
  | nil => rfl
  | cons q qs =>
    have hle := filter_key_len_le_one region_mapping rm_keys_nodup (sqlUpper c.country_code)
    rw [hfil] at hle
    have hq : qs = [] := by simpa using hle
    simp [hq]

/-- Claim C10: the country codes of the region_mapping lookup table are
pairwise distinct, so the left join matches each clean row to at most one
entry and the enriched table has exactly as many rows as the clean table. -/
theorem claim_C10 (clean : List CleanRow) :
    (region_mapping.map Prod.fst).Nodup ∧ (enrich clean).length = clean.length := by
  refine ⟨rm_keys_nodup, ?_⟩
  induction clean with
  | nil => rfl
  | cons c cs ih =>
    simp only [enrich, List.flatMap_cons, List.length_append, List.length_cons]
    have hcs : (cs.flatMap enrichRowsFor).length = cs.length := by
      simpa only [enrich] using ih
    rw [enrichRowsFor_length, hcs]
    omega

/-- Witness for C10 at a two-row clean table. -/
theorem claim_C10_witness :
    (region_mapping.map Prod.fst).Nodup ∧
      (enrich [cleanUSA, cleanUSA]).length = [cleanUSA, cleanUSA].length :=
  claim_C10 [cleanUSA, cleanUSA]

/-! ### Claim C1: regional aggregation -/

/-- Claim C1: every group reported by get_regional_data draws on a
nonempty set of contributing rows, its reported average is exactly the sum
of those rows' values divided by their number (the arithmetic mean), its
country count is the number of distinct contributing country codes, and
that count is at least 3 — equivalently, a (region, year) group with fewer
than 3 distinct contributing country codes is omitted from the result. -/
theorem claim_C1 (tbl : List EnrichedRow) (sel : Option (List String))
    (yr : Option (Int × Int)) (g : GroupRow)
    (hg : g ∈ get_regional_data tbl sel yr) :
    groupRows (filteredRows tbl sel yr) g.region g.year ≠ [] ∧
    g.avg_participation_rate =
      ((groupRows (filteredRows tbl sel yr) g.region g.year).map
          (fun r => r.value)).sum /
        ((groupRows (filteredRows tbl sel yr) g.region g.year).length : ℚ) ∧
    g.num_countries =
      distinctCountries (groupRows (filteredRows tbl sel yr) g.region g.year) ∧
    3 ≤ distinctCountries (groupRows (filteredRows tbl sel yr) g.region g.year) := by
  simp only [get_regional_data, List.mem_filter, List.mem_map,
    decide_eq_true_eq] at hg
  obtain ⟨⟨k, hk, rfl⟩, hcnt⟩ := hg
  refine ⟨?_, rfl, rfl, hcnt⟩
  rw [List.mem_dedup, List.mem_map] at hk
  obtain ⟨r, hr, rfl⟩ := hk
  refine List.ne_nil_of_mem (a := r) ?_
  rw [groupRows, List.mem_filter]
  exact ⟨hr, by simp [mkGroupRow]⟩

/-- Witness for C1 at a table with one three-country group. -/
theorem claim_C1_witness :
    groupRows (filteredRows tblNA none none) g0NA.region g0NA.year ≠ [] ∧
    g0NA.avg_participation_rate =
      ((groupRows (filteredRows tblNA none none) g0NA.region g0NA.year).map
          (fun r => r.value)).sum /
        ((groupRows (filteredRows tblNA none none) g0NA.region g0NA.year).length : ℚ) ∧
    g0NA.num_countries =
      distinctCountries (groupRows (filteredRows tblNA none none) g0NA.region g0NA.year) ∧
    3 ≤ distinctCountries (groupRows (filteredRows tblNA none none) g0NA.region g0NA.year) :=
  claim_C1 tblNA none none g0NA (by
    have hne : get_regional_data tblNA none none ≠ [] := by decide
    rcases hout : get_regional_data tblNA none none with - | ⟨a, t⟩
    · exact absurd hout hne
    · simp only [g0NA, hout, List.headI]
      exact List.mem_cons_self ..)

/-! ### Claim C6: exclusion of invalid regions in the query layer -/

/-- Discarding the rows with an invalid region before an operation that
itself filters on a predicate at least as strong changes nothing. -/
theorem filter_absorb_valid (tbl : List EnrichedRow) (P : EnrichedRow → Bool)
    (hP : ∀ r, P r = true → validRegion r.region = true) :
    (tbl.filter (fun r => validRegion r.region)).filter P = tbl.filter P := by
  rw [List.filter_filter]
  refine List.filter_congr (fun r _ => ?_)
  cases hp : P r
  · simp
  · simp [hP r hp]

/-- A row passing the get_regional_data WHERE clause has a valid region. -/
theorem rowPasses_valid (sel : Option (List String)) (yr : Option (Int × Int))
    (r : EnrichedRow) (h : rowPasses sel yr r = true) :
    validRegion r.region = true := by
  unfold rowPasses at h
  cases hv : validRegion r.region
  · rw [hv] at h; simp at h
  · rfl

/-- Counterexample to C6 as stated: get_year_range has no region filter,
so its bounds are computed from rows whose region is "Unknown"; dropping
the invalid-region rows first would give the SQL NULL bounds instead. -/
theorem claim_C6_counterexample :
    get_year_range [unknownRow] = (some 1999, some 1999) ∧
    List.filter (fun r => validRegion r.region) [unknownRow] = [] ∧
    get_year_range [] = (none, none) := by
  decide

/-- Claim C6 as amended: get_regional_data, get_available_regions and
get_summary_stats compute the same result whether or not the rows whose
region is "Unknown", NULL or empty are removed first — those rows never
contribute — while get_year_range scans the whole table. -/
theorem claim_C6 (tbl : List EnrichedRow) (sel sel2 : Option (List String))
    (yr : Option (Int × Int)) :
    get_regional_data (tbl.filter (fun r => validRegion r.region)) sel yr =
      get_regional_data tbl sel yr ∧
    get_available_regions (tbl.filter (fun r => validRegion r.region)) =
      get_available_regions tbl ∧
    get_summary_stats (tbl.filter (fun r => validRegion r.region)) sel2 =
      get_summary_stats tbl sel2 := by
  refine ⟨?_, ?_, ?_⟩
  · have hrows : filteredRows (tbl.filter (fun r => validRegion r.region)) sel yr =
        filteredRows tbl sel yr :=
      filter_absorb_valid tbl (rowPasses sel yr) (rowPasses_valid sel yr)
    simp only [get_regional_data, hrows]
  · have habs := filter_absorb_valid tbl
      (fun r => validRegion r.region && !(r.region == some "Other"))
      (fun r h => by simp only [Bool.and_eq_true] at h; exact h.1)
    simp only [get_available_regions, habs]
  · have habs := filter_absorb_valid tbl
      (fun r => validRegion r.region && regionSelected sel2 r.region)
      (fun r h => by simp only [Bool.and_eq_true] at h; exact h.1)
    simp only [get_summary_stats, habs]

/-- Witness for C6 at a mixed table. -/
theorem claim_C6_witness :
    get_regional_data ([unknownRow, rowLo].filter (fun r => validRegion r.region)) none none =
      get_regional_data [unknownRow, rowLo] none none ∧
    get_available_regions ([unknownRow, rowLo].filter (fun r => validRegion r.region)) =
      get_available_regions [unknownRow, rowLo] ∧
    get_summary_stats ([unknownRow, rowLo].filter (fun r => validRegion r.region)) none =
      get_summary_stats [unknownRow, rowLo] none :=
  claim_C6 [unknownRow, rowLo] none none none

/-! ### Claim C7: loader idempotence -/

/-- Claim C7: the loader never reads the prior database state (every table
is CREATE OR REPLACE ... from the raw files or freshly built tables), so a
second run against unchanged raw files reproduces exactly the enriched
table of the first run. -/
theorem claim_C7 (db0 db1 db2 : Database) (f : List RawRow) (d : List DictRow)
    (h1 : load_into_duckdb db0 f d = .ok db1)
    (h2 : load_into_duckdb db1 f d = .ok db2) :
    db2.indicator_with_region = db1.indicator_with_region := by
  have h : load_into_duckdb db0 f d = load_into_duckdb db1 f d := rfl
  rw [h, h2] at h1
  injection h1 with h3
  rw [h3]

/-- Witness for C7: loading empty raw files twice. -/
theorem claim_C7_witness :
    dbLoadedEmpty.indicator_with_region = dbLoadedEmpty.indicator_with_region :=
  claim_C7 dbEmpty dbLoadedEmpty dbLoadedEmpty [] [] rfl rfl

end DataDive
